import Mathlib

/-!
Verification of the connection-store and service layer of the
remotePlusPlus add-on (`addon/globalPlugins/remotePlusPlus/service.py`).

The Python in-memory configuration `self.data` is a JSON-shaped Python
dictionary.  Python dictionaries preserve insertion order, so they are
modelled as association lists over string keys; `dict.__setitem__`
replaces the value in place when the key is present and appends a new
entry otherwise, `del` removes the (unique) entry for the key keeping
the order of the others.
-/

namespace RemotePlusPlus

/-- Lookup in an insertion-ordered dictionary (first entry with the key). -/
def alGet : List (String × α) → String → Option α
  | [], _ => none
  | p :: rest, k => if p.1 = k then some p.2 else alGet rest k

/-- Python `d[k] = v`: replace in place when present, append when absent. -/
def alSet : List (String × α) → String → α → List (String × α)
  | [], k, v => [(k, v)]
  | p :: rest, k, v => if p.1 = k then (k, v) :: rest else p :: alSet rest k v

/-- Python `del d[k]`: drop the entry for `k`, keeping the others in order. -/
def alErase : List (String × α) → String → List (String × α)
  | [], _ => []
  | p :: rest, k => if p.1 = k then rest else p :: alErase rest k

/-- Python `k in d` (dictionary key membership). -/
def alHasKey (l : List (String × α)) (k : String) : Bool :=
  l.any (fun p => p.1 == k)

theorem alGet_alSet_self (l : List (String × α)) (k : String) (v : α) :
    alGet (alSet l k v) k = some v := by
  induction l with
  | nil => simp [alGet, alSet]
  | cons p rest ih =>
    by_cases h : p.1 = k
    · simp [alGet, alSet, h]
    · simp [alGet, alSet, h, ih]

theorem alGet_alSet_ne (l : List (String × α)) (k k' : String) (v : α)
    (h : k' ≠ k) : alGet (alSet l k v) k' = alGet l k' := by
  induction l with
  | nil => simp [alGet, alSet, Ne.symm h]
  | cons p rest ih =>
    by_cases hp : p.1 = k
    · subst hp
      simp [alGet, alSet, Ne.symm h]
    · by_cases hp' : p.1 = k'
      · simp [alGet, alSet, hp, hp', h]
      · simp [alGet, alSet, hp, hp', ih]

theorem alGet_alErase_ne (l : List (String × α)) (k k' : String)
    (h : k' ≠ k) : alGet (alErase l k) k' = alGet l k' := by
  induction l with
  | nil => simp [alErase]
  | cons p rest ih =>
    by_cases hp : p.1 = k
    · subst hp
      simp [alErase, alGet, Ne.symm h]
    · by_cases hp' : p.1 = k'
      · simp [alErase, alGet, hp, hp', h]
      · simp [alErase, alGet, hp, hp', ih]

theorem alHasKey_eq_isSome (l : List (String × α)) (k : String) :
    alHasKey l k = (alGet l k).isSome := by
  induction l with
  | nil => simp [alHasKey, alGet]
  | cons p rest ih =>
    by_cases hp : p.1 = k
    · simp [alHasKey, alGet, hp]
    · simp [alHasKey, alGet, hp, ← ih, hp]

theorem alGet_eq_none_of_not_hasKey (l : List (String × α)) (k : String)
    (h : alHasKey l k = false) : alGet l k = none := by
  rw [alHasKey_eq_isSome] at h
  cases hg : alGet l k with
  | none => rfl
  | some v => rw [hg] at h; simp at h

theorem keys_alSet_of_hasKey (l : List (String × α)) (k : String) (v : α)
    (h : alHasKey l k = true) :
    (alSet l k v).map Prod.fst = l.map Prod.fst := by
  induction l with
  | nil => simp [alHasKey] at h
  | cons p rest ih =>
    by_cases hp : p.1 = k
    · simp [alSet, hp]
    · simp only [alHasKey, List.any_cons, Bool.or_eq_true, beq_iff_eq, hp,
        false_or] at h
      simp [alSet, hp, ih h]

theorem keys_alSet_of_not_hasKey (l : List (String × α)) (k : String) (v : α)
    (h : alHasKey l k = false) :
    (alSet l k v).map Prod.fst = l.map Prod.fst ++ [k] := by
  induction l with
  | nil => simp [alSet]
  | cons p rest ih =>
    simp only [alHasKey, List.any_cons, Bool.or_eq_false_iff, beq_eq_false_iff_ne,
      ne_eq] at h
    simp [alSet, h.1, ih (by simpa [alHasKey] using h.2)]

theorem keys_alErase (l : List (String × α)) (k : String) :
    (alErase l k).map Prod.fst = (l.map Prod.fst).erase k := by
  induction l with
  | nil => simp [alErase]
  | cons p rest ih =>
    by_cases hp : p.1 = k
    · simp [alErase, hp, List.erase_cons]
    · simp [alErase, hp, List.erase_cons, ih]

theorem alHasKey_alSet (l : List (String × α)) (k k' : String) (v : α)
    (h : alHasKey l k' = true) : alHasKey (alSet l k v) k' = true := by
  by_cases hk : k' = k
  · subst hk; simp [alHasKey_eq_isSome, alGet_alSet_self]
  · rw [alHasKey_eq_isSome, alGet_alSet_ne l k k' v hk, ← alHasKey_eq_isSome]
    exact h

theorem alHasKey_alErase_ne (l : List (String × α)) (k k' : String)
    (hne : k' ≠ k) (h : alHasKey l k' = true) :
    alHasKey (alErase l k) k' = true := by
  rw [alHasKey_eq_isSome, alGet_alErase_ne l k k' hne, ← alHasKey_eq_isSome]
  exact h

theorem alHasKey_append_left (l l' : List (String × α)) (k : String)
    (h : alHasKey l k = true) : alHasKey (l ++ l') k = true := by
  simp only [alHasKey, List.any_append, Bool.or_eq_true]
  exact Or.inl h

/-! ## JSON documents

`json.load` produces a tree of Python values: `None`, booleans, numbers,
strings, lists, and string-keyed dictionaries.  Floats never occur in the
documents this store reads or writes, so numbers are modelled as integers. -/

inductive JVal where
  | null
  | bool (b : Bool)
  | num (n : Int)
  | str (s : String)
  | arr (xs : List JVal)
  | obj (kvs : List (String × JVal))

/-- The in-memory `self.data` dictionary. -/
abbrev PyDict := List (String × JVal)

/-- Exceptions that escape `loadConfig` (only `OSError` and
`json.JSONDecodeError` are caught by the `try` block; `TypeError`,
`ValueError` and `KeyError` propagate to the caller).  `typeError` stands
for the `TypeError`/`ValueError` family raised by `dict.update` and by
`in`/item assignment on non-dictionary values. -/
inductive PyErr where
  | typeError
  | keyError

/-- Source `self.data.update(loaded)` when `loaded` is a dictionary: merge every
key-value pair in order (this path cannot fail). -/
def dictMerge (d : PyDict) : List (String × JVal) → PyDict
  | [] => d
  | (k, v) :: rest => dictMerge (alSet d k v) rest

/-- Source `dict.update(seq)` on a list: CPython consumes the sequence one
element at a time, so a failure part-way leaves the earlier pairs applied.
An empty list is a no-op; a two-element `[key, value]` array with a string
key is applied; non-sequence or wrong-length elements raise
(`TypeError`/`ValueError`).  A two-element array with a non-string key
would succeed in CPython and produce a non-string dictionary key, which
this string-keyed model cannot represent; that one case is conservatively
mapped to an error here, and no theorem in this file depends on it. -/
def updateFromPairs (d : PyDict) : List JVal → PyDict × Option PyErr
  | [] => (d, none)
  | JVal.arr [JVal.str k, v] :: rest => updateFromPairs (alSet d k v) rest
  | _ :: _ => (d, some PyErr.typeError)

/-- Source `self.data.update(loaded)` on an arbitrary decoded JSON value.
Dictionaries merge; lists are consumed as key-value sequences; a non-empty
string yields length-1 elements that fail to unpack (`ValueError`); `None`,
booleans and numbers are not iterable (`TypeError`).  An empty string is an
empty sequence, so the update succeeds as a no-op. -/
def dictUpdate (d : PyDict) : JVal → PyDict × Option PyErr
  | JVal.obj kvs => (dictMerge d kvs, none)
  | JVal.arr xs => updateFromPairs d xs
  | JVal.str s => if s = "" then (d, none) else (d, some PyErr.typeError)
  | _ => (d, some PyErr.typeError)

/-- Python `"Default" in hay` when `hay` is a string: substring test. -/
def strContains (hay needle : String) : Bool :=
  (hay.splitOn needle).length > 1

/-- Lines 59-60 of `loadConfig`:
`if self.DEFAULT_GROUP not in self.data["groups"]:` followed by
`self.data["groups"][self.DEFAULT_GROUP] = []`.  The subscript raises
`KeyError` when `"groups"` is absent; `in` on `None`/booleans/numbers
raises `TypeError`; on a string it is a substring test and the subsequent
item assignment raises `TypeError`; on a list it is element membership and
the subsequent item assignment (string index into a list) raises
`TypeError`. -/
def ensureDefaultGroup (d : PyDict) : PyDict × Option PyErr :=
  match alGet d "groups" with
  | none => (d, some PyErr.keyError)
  | some (JVal.obj kvs) =>
      if alHasKey kvs "Default" then (d, none)
      else (alSet d "groups" (JVal.obj (kvs ++ [("Default", JVal.arr [])])), none)
  | some (JVal.arr xs) =>
      if xs.any (fun x => match x with | JVal.str s => s = "Default" | _ => false)
      then (d, none) else (d, some PyErr.typeError)
  | some (JVal.str s) =>
      if strContains s "Default" then (d, none) else (d, some PyErr.typeError)
  | some _ => (d, some PyErr.typeError)

/-- What the persisted file offers to `loadConfig`: no file at all, a file
whose read or JSON parse fails (`OSError` / `json.JSONDecodeError`, both
caught), or a successfully decoded JSON document. -/
inductive FileState where
  | missing
  | readError
  | parsed (doc : JVal)

/-- Source `_getDefaultData`. -/
def getDefaultData : PyDict :=
  [("active_group", JVal.str "Default"),
   ("close_on_connect", JVal.bool true),
   ("groups", JVal.obj [("Default", JVal.arr [])])]

/-- Source `ConnectionManager.loadConfig`, as a function of the prior in-memory
data and the state of the persisted file.  Returns the in-memory data after
the call together with the exception that escaped, if any (the `except`
clause catches only `OSError` and `json.JSONDecodeError`; on the mutation
path those cannot occur, so any error produced by the update or the
default-group fix propagates, with whatever partial mutation the sequence
update already performed). -/
def loadConfig (data : PyDict) : FileState → PyDict × Option PyErr
  | FileState.missing => (data, none)
  | FileState.readError => (data, none)
  | FileState.parsed doc =>
      match dictUpdate data doc with
      | (d, some e) => (d, some e)
      | (d, none) => ensureDefaultGroup d

/-! ## Typed store layer

Every state the in-memory `self.data` dictionary reaches through the
`ConnectionManager` operations keeps the shape written by
`_getDefaultData`: three fixed top-level keys, `groups` mapping group
names to lists of connection entries with the seven fields written by
`addConnection`.  The operations are therefore embedded over a typed
record; `saveConfig`'s serialisation (`storeToDoc`) connects this layer
back to the JSON layer. -/

/-- A connection entry as built by `addConnection` (`mode` is the string
`"leader"` or `"follower"`, as stored). -/
structure Profile where
  id : String
  name : String
  host : String
  key : String
  port : Nat
  mode : String
  selfHosted : Bool
deriving DecidableEq

/-- The in-memory store document: `active_group`, `close_on_connect` and
the insertion-ordered `groups` mapping. -/
structure Store where
  active_group : String
  close_on_connect : Bool
  groups : List (String × List Profile)
deriving DecidableEq

/-- Source `ConnectionManager.DEFAULT_GROUP`. -/
def DEFAULT_GROUP : String := "Default"

/-- Source `_getDefaultData`, at the typed level. -/
def defaultStoreData : Store :=
  { active_group := DEFAULT_GROUP
    close_on_connect := true
    groups := [(DEFAULT_GROUP, [])] }

/-- Source `getGroups`: `list(self.data["groups"].keys())`. -/
def getGroups (s : Store) : List String :=
  s.groups.map Prod.fst

/-- Source `getActiveGroup`. -/
def getActiveGroup (s : Store) : String :=
  if alHasKey s.groups s.active_group then s.active_group else DEFAULT_GROUP

/-- Source `setActiveGroup`. -/
def setActiveGroup (s : Store) (groupName : String) : Store :=
  if alHasKey s.groups groupName then { s with active_group := groupName } else s

/-- Source `getCloseOnConnect` (the key is always present at the typed level). -/
def getCloseOnConnect (s : Store) : Bool :=
  s.close_on_connect

/-- Source `setCloseOnConnect`. -/
def setCloseOnConnect (s : Store) (value : Bool) : Store :=
  { s with close_on_connect := value }

/-- Source `createGroup`.  A new dictionary key is appended at the end. -/
def createGroup (s : Store) (groupName : String) : Store × Bool :=
  if alHasKey s.groups groupName then (s, false)
  else ({ s with groups := s.groups ++ [(groupName, [])] }, true)

/-- Source `renameGroup`.  `pop(oldName)` removes the entry, then assignment to
the absent `newName` appends it at the end of the mapping. -/
def renameGroup (s : Store) (oldName newName : String) : Store × Bool :=
  if oldName = DEFAULT_GROUP then (s, false)
  else if ¬ alHasKey s.groups oldName ∨ alHasKey s.groups newName then (s, false)
  else
    let items := (alGet s.groups oldName).getD []
    ({ active_group := if s.active_group = oldName then newName else s.active_group
       close_on_connect := s.close_on_connect
       groups := alSet (alErase s.groups oldName) newName items }, true)

/-- Source `deleteGroup`.  When `moveItemsToDefault` is set the code reads
`self.data["groups"][self.DEFAULT_GROUP]` and extends it in place; if the
`"Default"` key were absent that subscript would raise `KeyError` before
any mutation, modelled by the `none` result. -/
def deleteGroup (s : Store) (groupName : String) (moveItemsToDefault : Bool) :
    Option (Store × Bool) :=
  if groupName = DEFAULT_GROUP then some (s, false)
  else if ¬ alHasKey s.groups groupName then some (s, false)
  else
    let afterMove : Option (List (String × List Profile)) :=
      if moveItemsToDefault then
        match alGet s.groups DEFAULT_GROUP with
        | none => none
        | some defaultItems =>
            some (alSet s.groups DEFAULT_GROUP
              (defaultItems ++ (alGet s.groups groupName).getD []))
      else some s.groups
    match afterMove with
    | none => none
    | some groups1 =>
        some ({ active_group :=
                  if s.active_group = groupName then DEFAULT_GROUP else s.active_group
                close_on_connect := s.close_on_connect
                groups := alErase groups1 groupName }, true)

/-- Source `getConnections`: `self.data["groups"].get(groupName, [])`. -/
def getConnections (s : Store) (groupName : String) : List Profile :=
  (alGet s.groups groupName).getD []

/-- Source `addConnection`.  `str(uuid.uuid4())` is modelled by the extra `newId`
parameter (an opaque fresh string supplied by the environment). -/
def addConnection (s : Store) (groupName : String) (newId : String)
    (name host key : String) (port : Nat) (mode : String) (selfHosted : Bool) :
    Store × Option String :=
  if ¬ alHasKey s.groups groupName then (s, none)
  else
    let entry : Profile :=
      { id := newId, name := name, host := host, key := key
        port := port, mode := mode, selfHosted := selfHosted }
    ({ s with groups := alSet s.groups groupName
                  ((alGet s.groups groupName).getD [] ++ [entry]) },
     some newId)

/-- The keyword arguments accepted by `updateConnection`: any subset of
the profile fields may be supplied (UI callers pass profile fields only). -/
structure ProfileFields where
  id : Option String := none
  name : Option String := none
  host : Option String := none
  key : Option String := none
  port : Option Nat := none
  mode : Option String := none
  selfHosted : Option Bool := none
deriving DecidableEq

/-- Source `conn.update(kwargs)`: overwrite exactly the supplied fields. -/
def applyFields (p : Profile) (f : ProfileFields) : Profile :=
  { id := f.id.getD p.id
    name := f.name.getD p.name
    host := f.host.getD p.host
    key := f.key.getD p.key
    port := f.port.getD p.port
    mode := f.mode.getD p.mode
    selfHosted := f.selfHosted.getD p.selfHosted }

/-- The `for conn in connections` loop of `updateConnection`: update the
first entry whose `id` matches and stop; `none` when no entry matches. -/
def updFirst (connId : String) (f : ProfileFields) :
    List Profile → Option (List Profile)
  | [] => none
  | c :: rest =>
      if c.id = connId then some (applyFields c f :: rest)
      else (updFirst connId f rest).map (fun r => c :: r)

/-- Source `updateConnection`. -/
def updateConnection (s : Store) (groupName connId : String)
    (f : ProfileFields) : Store × Bool :=
  if ¬ alHasKey s.groups groupName then (s, false)
  else
    match updFirst connId f ((alGet s.groups groupName).getD []) with
    | none => (s, false)
    | some conns => ({ s with groups := alSet s.groups groupName conns }, true)

/-- The `for i, conn in enumerate(connections)` loop of
`deleteConnection`: delete the first entry whose `id` matches. -/
def delFirst (connId : String) : List Profile → Option (List Profile)
  | [] => none
  | c :: rest =>
      if c.id = connId then some rest
      else (delFirst connId rest).map (fun r => c :: r)

/-- Source `deleteConnection`. -/
def deleteConnection (s : Store) (groupName connId : String) : Store × Bool :=
  if ¬ alHasKey s.groups groupName then (s, false)
  else
    match delFirst connId ((alGet s.groups groupName).getD []) with
    | none => (s, false)
    | some conns => ({ s with groups := alSet s.groups groupName conns }, true)

/-- The simultaneous tuple assignment
`connections[idx], connections[newIdx] = connections[newIdx], connections[idx]`. -/
def swapList (l : List α) (i j : Nat) : List α :=
  match l[i]?, l[j]? with
  | some a, some b => (l.set i b).set j a
  | _, _ => l

/-- Source `next((i for i, c in enumerate(connections) if c["id"] == connId), -1)`:
the index of the first entry whose `id` matches (`-1`, i.e. `none`, when
there is none). -/
def findIdxOf (connId : String) : List Profile → Option Nat
  | [] => none
  | c :: rest =>
      if c.id = connId then some 0
      else (findIdxOf connId rest).map (fun i => i + 1)

/-- Source `moveConnection`. -/
def moveConnection (s : Store) (groupName connId : String) (direction : Int) :
    Store × Bool :=
  if ¬ alHasKey s.groups groupName then (s, false)
  else
    let connections := (alGet s.groups groupName).getD []
    match findIdxOf connId connections with
    | none => (s, false)
    | some idx =>
        let newIdx : Int := (idx : Int) + direction
        if 0 ≤ newIdx ∧ newIdx < (connections.length : Int) then
          ({ s with groups := alSet s.groups groupName
                        (swapList connections idx newIdx.toNat) },
           true)
        else (s, false)

/-- The JSON image of a `Profile`, with the keys in the order
`addConnection` writes them. -/
def profileToDoc (p : Profile) : JVal :=
  JVal.obj
    [("id", JVal.str p.id), ("name", JVal.str p.name), ("host", JVal.str p.host),
     ("key", JVal.str p.key), ("port", JVal.num (p.port : Int)),
     ("mode", JVal.str p.mode), ("selfHosted", JVal.bool p.selfHosted)]

/-- The JSON document `saveConfig` serialises (`json.dump(self.data, ...)`),
with the top-level keys in the insertion order established by
`_getDefaultData`.  `json.dump` followed by `json.load` is the identity on
such documents (string keys; string/bool/int/list/dict values only), so
persisting and re-reading the file is modelled as handing this document
back to `loadConfig`. -/
def storeToDoc (s : Store) : JVal :=
  JVal.obj
    [("active_group", JVal.str s.active_group),
     ("close_on_connect", JVal.bool s.close_on_connect),
     ("groups", JVal.obj (s.groups.map
        (fun gv => (gv.1, JVal.arr (gv.2.map profileToDoc)))))]

/-- Source `saveConfig`: the document written to disk. -/
def saveConfig (s : Store) : JVal := storeToDoc s

/-! ## Operation sequences -/

/-- One `ConnectionManager` call, for quantifying over arbitrary
operation sequences.  `addConnection`'s generated uuid appears as the
`newId` field. -/
inductive Op where
  | createGroup (groupName : String)
  | renameGroup (oldName newName : String)
  | deleteGroup (groupName : String) (moveItemsToDefault : Bool)
  | setActiveGroup (groupName : String)
  | setCloseOnConnect (value : Bool)
  | addConnection (groupName newId name host key : String) (port : Nat)
      (mode : String) (selfHosted : Bool)
  | updateConnection (groupName connId : String) (f : ProfileFields)
  | deleteConnection (groupName connId : String)
  | moveConnection (groupName connId : String) (direction : Int)

/-- The store state after one call.  A `deleteGroup` call that would raise
`KeyError` does so before any mutation, so the state is unchanged. -/
def step (s : Store) : Op → Store
  | Op.createGroup g => (createGroup s g).1
  | Op.renameGroup o n => (renameGroup s o n).1
  | Op.deleteGroup g m =>
      match deleteGroup s g m with
      | some r => r.1
      | none => s
  | Op.setActiveGroup g => setActiveGroup s g
  | Op.setCloseOnConnect b => setCloseOnConnect s b
  | Op.addConnection g i n h k p mo sh => (addConnection s g i n h k p mo sh).1
  | Op.updateConnection g c f => (updateConnection s g c f).1
  | Op.deleteConnection g c => (deleteConnection s g c).1
  | Op.moveConnection g c d => (moveConnection s g c d).1

/-- The store after a sequence of calls. -/
def runOps (s : Store) (ops : List Op) : Store :=
  ops.foldl step s

/-! ## Service layer

`RemoteService` reads the ambient host state: the `_remoteClient` module
(its live client singleton with its leader/follower sessions) and the
host's remote configuration (`controlServer` section, `ui` section).  The
external `addressToHostPort` parser is passed in as a function returning
`none` where the Python original raises `ValueError`. -/

/-- Source `_remoteClient.connectionInfo.ConnectionMode`. -/
inductive ConnectionMode where
  | leader
  | follower
deriving DecidableEq

/-- Source `config.configFlags.RemoteConnectionMode`: the integer stored in the
`connectionMode` configuration key (`FOLLOWER = 0`, `LEADER = 1`). -/
inductive RemoteConnectionMode where
  | follower
  | leader
deriving DecidableEq

/-- Source `RemoteConnectionMode.toConnectionMode`. -/
def RemoteConnectionMode.toConnectionMode :
    RemoteConnectionMode → ConnectionMode
  | RemoteConnectionMode.follower => ConnectionMode.follower
  | RemoteConnectionMode.leader => ConnectionMode.leader

/-- The integer value written to the `connectionMode` key
(`1 if conn["mode"] == "leader" else 0`). -/
def RemoteConnectionMode.toNat : RemoteConnectionMode → Nat
  | RemoteConnectionMode.follower => 0
  | RemoteConnectionMode.leader => 1

/-- Source `_remoteClient.connectionInfo.ConnectionInfo`. -/
structure ConnectionInfo where
  hostname : String
  port : Nat
  key : String
  mode : ConnectionMode
  insecure : Bool
deriving DecidableEq

/-- A live session of the host client: the descriptor its
`getConnectionInfo()` returns and its transport's `insecure` flag. -/
structure Session where
  info : ConnectionInfo
  transportInsecure : Bool
deriving DecidableEq

/-- The host's `RemoteClient` singleton (`_remoteClient._remoteClient`):
its `isConnected()` result and its two optional sessions. -/
structure RemoteClient where
  connected : Bool
  leaderSession : Option Session
  followerSession : Option Session
deriving DecidableEq

/-- The `controlServer` section of the host's remote configuration.  The
host config system supplies a default for every key (`port` defaults to
6837, `connectionMode` to follower), so all fields are present. -/
structure ControlServerConf where
  autoconnect : Bool
  selfHosted : Bool
  connectionMode : RemoteConnectionMode
  key : String
  host : String
  port : Nat
deriving DecidableEq

/-- The ambient host state a `RemoteService` call observes:
`_remoteClient._remoteClient` (absent when the remote-control feature is
not running) and the `controlServer` configuration section (absent when
the remote configuration has no such section). -/
structure HostState where
  remoteClient : Option RemoteClient
  controlServer : Option ControlServerConf
deriving DecidableEq

/-- Source `isRunning`: `_remoteClient.remoteRunning()`, i.e. the client
singleton exists. -/
def isRunning (h : HostState) : Bool :=
  h.remoteClient.isSome

/-- Source `isConnected`. -/
def isConnected (h : HostState) : Bool :=
  if ¬ isRunning h then false
  else
    match h.remoteClient with
    | none => false
    | some client => client.connected

/-- Source `getClient`. -/
def getClient (h : HostState) : Option RemoteClient :=
  if isRunning h then h.remoteClient else none

/-- Source `getCurrentConnectionInfo`: `client.leaderSession or
client.followerSession`, then the session's descriptor with its
`insecure` field overwritten from the transport. -/
def getCurrentConnectionInfo (h : HostState) : Option ConnectionInfo :=
  match getClient h with
  | none => none
  | some client =>
      match client.leaderSession.or client.followerSession with
      | none => none
      | some session => some { session.info with insecure := session.transportInsecure }

/-- Source `getControlServerConfig`. -/
def getControlServerConfig (h : HostState) : Option ControlServerConf :=
  h.controlServer

/-- Source `isCurrentConnectionDefault`.  `addrToHostPort` is the external
`addressToHostPort` parser; `none` models the `ValueError` the Python
code catches and turns into `return False`. -/
def isCurrentConnectionDefault
    (addrToHostPort : String → Option (String × Nat)) (h : HostState) : Bool :=
  if ¬ isConnected h then false
  else
    match getControlServerConfig h with
    | none => false
    | some conf =>
        match getCurrentConnectionInfo h with
        | none => false
        | some currentInfo =>
            let resolved : Option (String × Nat) :=
              if ¬ conf.selfHosted then addrToHostPort conf.host
              else some ("localhost", conf.port)
            match resolved with
            | none => false
            | some hp =>
                let configMode := conf.connectionMode.toConnectionMode
                decide (currentInfo.hostname = hp.1) &&
                decide (currentInfo.port = hp.2) &&
                decide (currentInfo.key = conf.key) &&
                decide (currentInfo.mode = configMode)

/-- Source `getSwapTargetInfo`. -/
def getSwapTargetInfo (h : HostState) :
    Option ConnectionInfo × Option ConnectionMode :=
  match getClient h with
  | none => (none, none)
  | some client =>
      let pair : Option ConnectionInfo × Option ConnectionMode :=
        if client.leaderSession.isSome then
          (getCurrentConnectionInfo h, some ConnectionMode.follower)
        else if client.followerSession.isSome then
          (getCurrentConnectionInfo h, some ConnectionMode.leader)
        else (none, none)
      match pair with
      | (some currentInfo, some newMode) =>
          (some { hostname := currentInfo.hostname
                  port := currentInfo.port
                  key := currentInfo.key
                  mode := newMode
                  insecure := currentInfo.insecure }, some newMode)
      | _ => (none, none)

/-- Source `setAsAutoConnect`: the `controlServer` section after writing the
given connection entry into it (`config.conf` keeps every key it already
had; only the keys the method assigns change). -/
def setAsAutoConnect (cs : ControlServerConf) (conn : Profile) :
    ControlServerConf :=
  let cs1 : ControlServerConf :=
    { cs with
        autoconnect := true
        selfHosted := conn.selfHosted
        connectionMode :=
          if conn.mode = "leader" then RemoteConnectionMode.leader
          else RemoteConnectionMode.follower
        key := conn.key }
  if conn.selfHosted then { cs1 with port := conn.port }
  else
    { cs1 with host :=
        if conn.port ≠ 6837 then conn.host ++ ":" ++ toString conn.port
        else conn.host }

/-! ## Lemmas about the JSON merge -/

theorem alGet_eq_none_of_not_mem_keys (l : List (String × α)) (k : String)
    (h : k ∉ l.map Prod.fst) : alGet l k = none := by
  induction l with
  | nil => rfl
  | cons p rest ih =>
    simp only [List.map_cons, List.mem_cons] at h
    push_neg at h
    simp [alGet, Ne.symm h.1, ih h.2]

theorem alGet_dictMerge_of_none (d : PyDict) (kvs : List (String × JVal))
    (k : String) (h : alGet kvs k = none) :
    alGet (dictMerge d kvs) k = alGet d k := by
  induction kvs generalizing d with
  | nil => rfl
  | cons p rest ih =>
    obtain ⟨k0, v0⟩ := p
    by_cases hk : k0 = k
    · simp [alGet, hk] at h
    · simp only [alGet, hk, if_false] at h
      rw [dictMerge, ih (alSet d k0 v0) h, alGet_alSet_ne d k0 k v0 (Ne.symm hk)]

theorem alGet_dictMerge_of_some (d : PyDict) (kvs : List (String × JVal))
    (k : String) (v : JVal) (hnd : (kvs.map Prod.fst).Nodup)
    (h : alGet kvs k = some v) :
    alGet (dictMerge d kvs) k = some v := by
  induction kvs generalizing d with
  | nil => simp [alGet] at h
  | cons p rest ih =>
    obtain ⟨k0, v0⟩ := p
    simp only [List.map_cons, List.nodup_cons] at hnd
    by_cases hk : k0 = k
    · subst hk
      simp only [alGet, if_true] at h
      rw [Option.some.injEq] at h
      subst h
      have hrest : alGet rest k0 = none :=
        alGet_eq_none_of_not_mem_keys rest k0 hnd.1
      rw [dictMerge, alGet_dictMerge_of_none _ _ _ hrest, alGet_alSet_self]
    · simp only [alGet, hk, if_false] at h
      rw [dictMerge]
      exact ih (alSet d k0 v0) hnd.2 h

theorem loadConfig_parsed_obj (data : PyDict) (kvs : List (String × JVal)) :
    loadConfig data (FileState.parsed (JVal.obj kvs)) =
      ensureDefaultGroup (dictMerge data kvs) := rfl

theorem ensureDefaultGroup_obj (d : PyDict) (g : List (String × JVal))
    (hd : alGet d "groups" = some (JVal.obj g)) :
    ensureDefaultGroup d =
      if alHasKey g "Default" then (d, none)
      else (alSet d "groups" (JVal.obj (g ++ [("Default", JVal.arr [])])), none) := by
  unfold ensureDefaultGroup
  rw [hd]

/-! ## C1 -/

/-- C1 is refuted at this input: the file holds the valid JSON document
`null`, so `json.load` succeeds; `self.data.update(None)` then raises an
uncaught `TypeError` ("'NoneType' object is not iterable") that
propagates to `loadConfig`'s caller, contradicting the claim that
`load()` returns normally for every parsed document. -/
theorem loadConfig_raises_on_null_document :
    loadConfig getDefaultData (FileState.parsed JVal.null) =
      (getDefaultData, some PyErr.typeError) := rfl

/-- C1 (amended): `load()` returns normally, leaving the in-memory data
untouched, when the file is missing or its read/parse fails; and for any
parsed document that is a JSON object whose `"groups"` member (when
present) is itself an object, `load()` returns normally, the merge is
applied to the default skeleton all-or-nothing, top-level keys absent
from the document keep their default values, and afterwards the `groups`
dictionary contains the `"Default"` key (recreated as an empty list if
the document lacked it).  The restriction of the claim's "any parsed
document" to this shape is exactly what the counterexample forces: the
parsed document `null` (see `loadConfig_raises_on_null_document`) makes
`load()` raise. -/
theorem loadConfig_object_document_spec (data : PyDict)
    (kvs : List (String × JVal)) (hnd : (kvs.map Prod.fst).Nodup)
    (hg : ∀ v, alGet kvs "groups" = some v → ∃ g, v = JVal.obj g) :
    loadConfig data FileState.missing = (data, none) ∧
    loadConfig data FileState.readError = (data, none) ∧
    (loadConfig getDefaultData (FileState.parsed (JVal.obj kvs))).2 = none ∧
    (∀ k, alGet kvs k = none →
      alGet (loadConfig getDefaultData (FileState.parsed (JVal.obj kvs))).1 k =
        alGet getDefaultData k) ∧
    (∃ g,
      alGet (loadConfig getDefaultData (FileState.parsed (JVal.obj kvs))).1 "groups" =
        some (JVal.obj g) ∧ alHasKey g "Default" = true) := by
  refine ⟨rfl, rfl, ?_⟩
  rw [loadConfig_parsed_obj]
  cases hk : alGet kvs "groups" with
  | none =>
    have hd1 : alGet (dictMerge getDefaultData kvs) "groups" =
        some (JVal.obj [("Default", JVal.arr [])]) := by
      rw [alGet_dictMerge_of_none _ _ _ hk]
      rfl
    rw [ensureDefaultGroup_obj _ _ hd1]
    have hdef : alHasKey [(("Default" : String), JVal.arr [])] "Default" = true := rfl
    rw [if_pos hdef]
    refine ⟨rfl, ?_, ⟨[("Default", JVal.arr [])], hd1, rfl⟩⟩
    intro k hkk
    exact alGet_dictMerge_of_none _ _ _ hkk
  | some v =>
    obtain ⟨g, rfl⟩ := hg v hk
    have hd1 : alGet (dictMerge getDefaultData kvs) "groups" = some (JVal.obj g) :=
      alGet_dictMerge_of_some _ _ _ _ hnd hk
    rw [ensureDefaultGroup_obj _ _ hd1]
    have hkg : ∀ k, alGet kvs k = none → k ≠ "groups" := by
      intro k hkk he
      rw [he, hk] at hkk
      exact Option.noConfusion hkk
    by_cases hdd : alHasKey g "Default"
    · rw [if_pos hdd]
      refine ⟨rfl, ?_, ⟨g, hd1, hdd⟩⟩
      intro k hkk
      exact alGet_dictMerge_of_none _ _ _ hkk
    · rw [if_neg hdd]
      refine ⟨rfl, ?_, ?_⟩
      · intro k hkk
        rw [alGet_alSet_ne _ _ _ _ (hkg k hkk)]
        exact alGet_dictMerge_of_none _ _ _ hkk
      · refine ⟨g ++ [("Default", JVal.arr [])], ?_, ?_⟩
        · exact alGet_alSet_self _ _ _
        · simp [alHasKey, List.any_append]

/-- Witness for the amended C1 at a concrete document
`{"active_group": "Work", "groups": {"Work": []}}`. -/
theorem loadConfig_object_document_spec_witness :
    (loadConfig getDefaultData (FileState.parsed (JVal.obj
      [("active_group", JVal.str "Work"),
       ("groups", JVal.obj [("Work", JVal.arr [])])]))).2 = none :=
  (loadConfig_object_document_spec getDefaultData
    [("active_group", JVal.str "Work"),
     ("groups", JVal.obj [("Work", JVal.arr [])])]
    (by decide)
    (fun v h => ⟨[("Work", JVal.arr [])], (Option.some.inj h).symm⟩)).2.2.1

/-! ## C3 -/

theorem alHasKey_map_image (l : List (String × α)) (f : String × α → β)
    (k : String) :
    alHasKey (l.map (fun gv => (gv.1, f gv))) k = alHasKey l k := by
  induction l with
  | nil => rfl
  | cons p rest ih =>
    simp only [List.map_cons, alHasKey, List.any_cons] at ih ⊢
    rw [ih]

/-- C3: saving a store document and hydrating a fresh default skeleton
from the written file reproduces the store exactly: the resulting
in-memory dictionary has the same active group, the same close-on-connect
flag, and the same groups in the same order with each group's profiles in
the same order with the same field values — and the load raises nothing.
(In-memory store documents always contain the `"Default"` group, claim
C2; that fact enters as the hypothesis.) -/
theorem save_load_roundTrip (s : Store)
    (hdef : alHasKey s.groups DEFAULT_GROUP = true) :
    loadConfig getDefaultData (FileState.parsed (saveConfig s)) =
      ([("active_group", JVal.str s.active_group),
        ("close_on_connect", JVal.bool s.close_on_connect),
        ("groups", JVal.obj (s.groups.map
          (fun gv => (gv.1, JVal.arr (gv.2.map profileToDoc)))))], none) := by
  rw [show saveConfig s = storeToDoc s from rfl]
  unfold storeToDoc
  rw [loadConfig_parsed_obj]
  have hmerge : dictMerge getDefaultData
      [("active_group", JVal.str s.active_group),
       ("close_on_connect", JVal.bool s.close_on_connect),
       ("groups", JVal.obj (s.groups.map
          (fun gv => (gv.1, JVal.arr (gv.2.map profileToDoc)))))] =
      [("active_group", JVal.str s.active_group),
       ("close_on_connect", JVal.bool s.close_on_connect),
       ("groups", JVal.obj (s.groups.map
          (fun gv => (gv.1, JVal.arr (gv.2.map profileToDoc)))))] := by
    simp [dictMerge, alSet, getDefaultData]
  rw [hmerge]
  rw [ensureDefaultGroup_obj _
    (s.groups.map (fun gv => (gv.1, JVal.arr (gv.2.map profileToDoc))))
    (by simp [alGet])]
  rw [if_pos (by rw [alHasKey_map_image]; exact hdef)]

/-- Witness for C3 at a concrete two-group store. -/
theorem save_load_roundTrip_witness :
    loadConfig getDefaultData (FileState.parsed (saveConfig
      { active_group := "Work"
        close_on_connect := false
        groups := [("Default", []),
                   ("Work", [{ id := "u1", name := "Home PC", host := "example.org",
                               key := "1234567", port := 6837, mode := "leader",
                               selfHosted := false }])] })) =
      ([("active_group", JVal.str "Work"),
        ("close_on_connect", JVal.bool false),
        ("groups", JVal.obj
          [("Default", JVal.arr []),
           ("Work", JVal.arr [profileToDoc
              { id := "u1", name := "Home PC", host := "example.org",
                key := "1234567", port := 6837, mode := "leader",
                selfHosted := false }])])], none) :=
  save_load_roundTrip
    { active_group := "Work"
      close_on_connect := false
      groups := [("Default", []),
                 ("Work", [{ id := "u1", name := "Home PC", host := "example.org",
                             key := "1234567", port := 6837, mode := "leader",
                             selfHosted := false }])] }
    (by decide)

/-! ## C2 -/

theorem alHasKey_step_default (s : Store) (op : Op)
    (h : alHasKey s.groups DEFAULT_GROUP = true) :
    alHasKey (step s op).groups DEFAULT_GROUP = true := by
  cases op with
  | createGroup g =>
    simp only [step, createGroup]
    split
    · exact h
    · exact alHasKey_append_left _ _ _ h
  | renameGroup o n =>
    simp only [step, renameGroup]
    split
    · exact h
    · split
      · exact h
      · rename_i ho hc
        exact alHasKey_alSet _ _ _ _
          (alHasKey_alErase_ne _ _ _ (fun he => ho he.symm) h)
  | deleteGroup g m =>
    by_cases hg : g = DEFAULT_GROUP
    · have hdel : step s (Op.deleteGroup g m) = s := by
        simp [step, deleteGroup, hg]
      rw [hdel]
      exact h
    · by_cases hk : alHasKey s.groups g = true
      · cases m with
        | false =>
          have hdel : step s (Op.deleteGroup g false) =
              { active_group :=
                  if s.active_group = g then DEFAULT_GROUP else s.active_group
                close_on_connect := s.close_on_connect
                groups := alErase s.groups g } := by
            simp [step, deleteGroup, hg, hk]
          rw [hdel]
          exact alHasKey_alErase_ne _ _ _ (fun he => hg he.symm) h
        | true =>
          cases hd : alGet s.groups DEFAULT_GROUP with
          | none =>
            rw [alHasKey_eq_isSome, hd] at h
            simp at h
          | some defaultItems =>
            have hdel : step s (Op.deleteGroup g true) =
                { active_group :=
                    if s.active_group = g then DEFAULT_GROUP else s.active_group
                  close_on_connect := s.close_on_connect
                  groups := alErase (alSet s.groups DEFAULT_GROUP
                    (defaultItems ++ (alGet s.groups g).getD [])) g } := by
              simp [step, deleteGroup, hg, hk, hd]
            rw [hdel]
            exact alHasKey_alErase_ne _ _ _ (fun he => hg he.symm)
              (alHasKey_alSet _ _ _ _ h)
      · have hdel : step s (Op.deleteGroup g m) = s := by
          simp [step, deleteGroup, hg, hk]
        rw [hdel]
        exact h
  | setActiveGroup g =>
    simp only [step, setActiveGroup]
    split
    · exact h
    · exact h
  | setCloseOnConnect b =>
    exact h
  | addConnection g i n ho k p mo sh =>
    simp only [step, addConnection]
    split
    · exact h
    · exact alHasKey_alSet _ _ _ _ h
  | updateConnection g c f =>
    simp only [step, updateConnection]
    split
    · exact h
    · split
      · exact h
      · exact alHasKey_alSet _ _ _ _ h
  | deleteConnection g c =>
    simp only [step, deleteConnection]
    split
    · exact h
    · split
      · exact h
      · exact alHasKey_alSet _ _ _ _ h
  | moveConnection g c d =>
    simp only [step, moveConnection]
    split
    · exact h
    · split
      · exact h
      · split
        · exact alHasKey_alSet _ _ _ _ h
        · exact h

/-- C2: starting from the default skeleton, every sequence of
`ConnectionManager` operations leaves a group named exactly `"Default"`
in the groups mapping; and at any such reachable state,
`renameGroup("Default", x)` and `deleteGroup("Default", b)` return false
and leave the whole store unchanged. -/
theorem default_group_invariant (ops : List Op) (x : String) (b : Bool) :
    alHasKey (runOps defaultStoreData ops).groups DEFAULT_GROUP = true ∧
    renameGroup (runOps defaultStoreData ops) DEFAULT_GROUP x =
      (runOps defaultStoreData ops, false) ∧
    deleteGroup (runOps defaultStoreData ops) DEFAULT_GROUP b =
      some (runOps defaultStoreData ops, false) := by
  refine ⟨?_, by simp [renameGroup], by simp [deleteGroup]⟩
  have hrun : ∀ (l : List Op) (s : Store),
      alHasKey s.groups DEFAULT_GROUP = true →
      alHasKey (runOps s l).groups DEFAULT_GROUP = true := by
    intro l
    induction l with
    | nil => intro s hs; exact hs
    | cons op rest ih =>
      intro s hs
      exact ih (step s op) (alHasKey_step_default s op hs)
  exact hrun ops defaultStoreData rfl

/-! ## C4 -/

/-- C4: for a group `g ≠ "Default"` holding `items`, `deleteGroup(g, true)`
succeeds, appends exactly `g`'s profiles to the end of `"Default"`'s list
in their original order (Default's prior entries unchanged and first),
removes `g` from `getGroups()` (all other groups keeping their lists),
resets the active group to `"Default"` exactly when it pointed at `g`,
and keeps the preference flag; `deleteGroup` fails without mutation on
`"Default"` itself and on an absent group. -/
theorem deleteGroup_spec (s : Store) (g : String)
    (items defaultItems : List Profile)
    (hne : g ≠ DEFAULT_GROUP)
    (hg : alGet s.groups g = some items)
    (hd : alGet s.groups DEFAULT_GROUP = some defaultItems) :
    (∃ s', deleteGroup s g true = some (s', true) ∧
      alGet s'.groups DEFAULT_GROUP = some (defaultItems ++ items) ∧
      getGroups s' = (getGroups s).erase g ∧
      (∀ g', g' ≠ g → g' ≠ DEFAULT_GROUP →
        alGet s'.groups g' = alGet s.groups g') ∧
      s'.active_group =
        (if s.active_group = g then DEFAULT_GROUP else s.active_group) ∧
      s'.close_on_connect = s.close_on_connect) ∧
    (∀ b, deleteGroup s DEFAULT_GROUP b = some (s, false)) ∧
    (∀ h b, alGet s.groups h = none → deleteGroup s h b = some (s, false)) := by
  have hk : alHasKey s.groups g = true := by
    rw [alHasKey_eq_isSome, hg]
    rfl
  refine ⟨?_, fun b => by simp [deleteGroup], ?_⟩
  · have hdel : deleteGroup s g true =
        some ({ active_group :=
                  if s.active_group = g then DEFAULT_GROUP else s.active_group
                close_on_connect := s.close_on_connect
                groups := alErase (alSet s.groups DEFAULT_GROUP
                  (defaultItems ++ items)) g }, true) := by
      simp [deleteGroup, hne, hk, hd, hg]
    refine ⟨_, hdel, ?_, ?_, ?_, rfl, rfl⟩
    · rw [alGet_alErase_ne _ _ _ (fun he => hne he.symm), alGet_alSet_self]
    · show (alErase (alSet s.groups DEFAULT_GROUP (defaultItems ++ items)) g).map
          Prod.fst = (s.groups.map Prod.fst).erase g
      rw [keys_alErase, keys_alSet_of_hasKey]
      rw [alHasKey_eq_isSome, hd]
      rfl
    · intro g' hg1 hg2
      rw [alGet_alErase_ne _ _ _ hg1, alGet_alSet_ne _ _ _ _ hg2]
  · intro h b hnone
    have hkh : alHasKey s.groups h = false := by
      rw [alHasKey_eq_isSome, hnone]
      rfl
    by_cases hhd : h = DEFAULT_GROUP
    · simp [deleteGroup, hhd]
    · simp [deleteGroup, hhd, hkh]

/-- Witness for C4: deleting group `"Work"` (one profile) from a store
whose Default group has one profile moves the Work profile to the end of
Default. -/
theorem deleteGroup_spec_witness :
    ∃ s', deleteGroup
      { active_group := "Work"
        close_on_connect := true
        groups := [("Default", [{ id := "d1", name := "A", host := "a.org",
                                  key := "k1", port := 6837, mode := "leader",
                                  selfHosted := false }]),
                   ("Work", [{ id := "w1", name := "B", host := "b.org",
                               key := "k2", port := 7000, mode := "follower",
                               selfHosted := false }])] }
      "Work" true = some (s', true) ∧
    alGet s'.groups DEFAULT_GROUP =
      some [{ id := "d1", name := "A", host := "a.org", key := "k1",
              port := 6837, mode := "leader", selfHosted := false },
            { id := "w1", name := "B", host := "b.org", key := "k2",
              port := 7000, mode := "follower", selfHosted := false }] ∧
    getGroups s' = ["Default"] ∧ s'.active_group = "Default" := by
  obtain ⟨s', h1, h2, h3, _, h5, _⟩ :=
    (deleteGroup_spec
      { active_group := "Work"
        close_on_connect := true
        groups := [("Default", [{ id := "d1", name := "A", host := "a.org",
                                  key := "k1", port := 6837, mode := "leader",
                                  selfHosted := false }]),
                   ("Work", [{ id := "w1", name := "B", host := "b.org",
                               key := "k2", port := 7000, mode := "follower",
                               selfHosted := false }])] }
      "Work"
      [{ id := "w1", name := "B", host := "b.org", key := "k2",
         port := 7000, mode := "follower", selfHosted := false }]
      [{ id := "d1", name := "A", host := "a.org", key := "k1",
         port := 6837, mode := "leader", selfHosted := false }]
      (by decide) (by decide) (by decide)).1
  refine ⟨s', h1, h2, ?_, ?_⟩
  · rw [h3]
    decide
  · rw [h5]
    decide

/-! ## C10 -/

/-- C10: a successful `renameGroup(old, new)` does not keep the group's
position: the entry is removed under `old` and re-appended under `new`,
so `getGroups()` afterwards lists the renamed group last, with all other
groups in their previous relative order; the renamed group keeps its
profile list. -/
theorem renameGroup_moves_to_end (s : Store) (oldName newName : String)
    (items : List Profile)
    (hne : oldName ≠ DEFAULT_GROUP)
    (hold : alGet s.groups oldName = some items)
    (hnew : alHasKey s.groups newName = false) :
    ∃ s', renameGroup s oldName newName = (s', true) ∧
      getGroups s' = (getGroups s).erase oldName ++ [newName] ∧
      alGet s'.groups newName = some items := by
  have hko : alHasKey s.groups oldName = true := by
    rw [alHasKey_eq_isSome, hold]
    rfl
  have hren : renameGroup s oldName newName =
      ({ active_group :=
           if s.active_group = oldName then newName else s.active_group
         close_on_connect := s.close_on_connect
         groups := alSet (alErase s.groups oldName) newName items }, true) := by
    simp [renameGroup, hne, hko, hnew, hold]
  refine ⟨_, hren, ?_, ?_⟩
  · show (alSet (alErase s.groups oldName) newName items).map Prod.fst =
      (s.groups.map Prod.fst).erase oldName ++ [newName]
    have hkn : alHasKey (alErase s.groups oldName) newName = false := by
      cases hb : alHasKey (alErase s.groups oldName) newName with
      | false => rfl
      | true =>
        by_cases he : newName = oldName
        · rw [he] at hnew
          rw [hko] at hnew
          exact Bool.noConfusion hnew
        · rw [alHasKey_eq_isSome, alGet_alErase_ne _ _ _ he,
            ← alHasKey_eq_isSome, hnew] at hb
          exact absurd hb (by simp)
    rw [keys_alSet_of_not_hasKey _ _ _ hkn, keys_alErase]
  · rw [alGet_alSet_self]

/-- Witness for C10: renaming `"A"` to `"Z"` in a three-group store puts
`"Z"` last while `"Default"` and `"B"` keep their relative order. -/
theorem renameGroup_moves_to_end_witness :
    ∃ s', renameGroup
      { active_group := "Default"
        close_on_connect := true
        groups := [("Default", []),
                   ("A", [{ id := "a1", name := "A1", host := "a.org",
                            key := "k", port := 6837, mode := "leader",
                            selfHosted := false }]),
                   ("B", [])] }
      "A" "Z" = (s', true) ∧
    getGroups s' = ["Default", "B", "Z"] := by
  obtain ⟨s', h1, h2, _⟩ :=
    renameGroup_moves_to_end
      { active_group := "Default"
        close_on_connect := true
        groups := [("Default", []),
                   ("A", [{ id := "a1", name := "A1", host := "a.org",
                            key := "k", port := 6837, mode := "leader",
                            selfHosted := false }]),
                   ("B", [])] }
      "A" "Z"
      [{ id := "a1", name := "A1", host := "a.org", key := "k",
         port := 6837, mode := "leader", selfHosted := false }]
      (by decide) (by decide) (by decide)
  refine ⟨s', h1, ?_⟩
  rw [h2]
  decide

/-! ## C7 -/

theorem findIdxOf_lt_length (cid : String) (l : List Profile) (i : Nat)
    (h : findIdxOf cid l = some i) : i < l.length := by
  induction l generalizing i with
  | nil => exact Option.noConfusion h
  | cons c rest ih =>
    by_cases hc : c.id = cid
    · simp only [findIdxOf, hc, if_true] at h
      rw [Option.some.injEq] at h
      subst h
      simp
    · simp only [findIdxOf, hc, if_false] at h
      cases hr : findIdxOf cid rest with
      | none => rw [hr] at h; exact Option.noConfusion h
      | some j =>
        rw [hr] at h
        simp only [Option.map_some'] at h
        rw [Option.some.injEq] at h
        subst h
        simpa using ih j hr

theorem swapList_length (l : List α) (i j : Nat) :
    (swapList l i j).length = l.length := by
  unfold swapList
  cases l[i]? <;> cases l[j]? <;> simp

theorem swapList_getElem? (l : List α) (i j m : Nat)
    (hi : i < l.length) (hj : j < l.length) :
    (swapList l i j)[m]? =
      if m = j then l[i]? else if m = i then l[j]? else l[m]? := by
  have hgi : l[i]? = some l[i] := List.getElem?_eq_getElem hi
  have hgj : l[j]? = some l[j] := List.getElem?_eq_getElem hj
  unfold swapList
  rw [hgi, hgj]
  by_cases hmj : m = j
  · subst hmj
    rw [if_pos rfl, List.getElem?_set_eq_of_lt _ (by simpa using hj)]
  · rw [if_neg hmj,
      List.getElem?_set_ne (show j ≠ m from fun he => hmj he.symm)]
    by_cases hmi : m = i
    · subst hmi
      rw [if_pos rfl, List.getElem?_set_eq_of_lt _ hi]
    · rw [if_neg hmi,
        List.getElem?_set_ne (show i ≠ m from fun he => hmi he.symm)]

theorem moveConnection_eq_notfound (s : Store) (g cid : String) (d : Int)
    (conns : List Profile) (hconns : alGet s.groups g = some conns)
    (hidx : findIdxOf cid conns = none) :
    moveConnection s g cid d = (s, false) := by
  have hk : alHasKey s.groups g = true := by
    rw [alHasKey_eq_isSome, hconns]
    rfl
  simp [moveConnection, hk, hconns, hidx]

theorem moveConnection_eq_found (s : Store) (g cid : String) (d : Int)
    (conns : List Profile) (idx : Nat)
    (hconns : alGet s.groups g = some conns)
    (hidx : findIdxOf cid conns = some idx) :
    moveConnection s g cid d =
      if 0 ≤ (idx : Int) + d ∧ (idx : Int) + d < (conns.length : Int) then
        ({ s with
            groups := alSet s.groups g
              (swapList conns idx ((idx : Int) + d).toNat) }, true)
      else (s, false) := by
  have hk : alHasKey s.groups g = true := by
    rw [alHasKey_eq_isSome, hconns]
    rfl
  simp [moveConnection, hk, hconns, hidx]

/-- C7: `moveConnection` fails without mutation when the group or id is
absent, when the first entry is moved up, or when the last entry is moved
down (no wraparound); otherwise it succeeds and the group's list is the
old list with the found entry swapped with its neighbour at
`index + direction`, every other position unchanged. -/
theorem moveConnection_spec (s : Store) (g cid : String) :
    (∀ d, alHasKey s.groups g = false → moveConnection s g cid d = (s, false)) ∧
    (∀ conns, alGet s.groups g = some conns →
      (∀ d, findIdxOf cid conns = none → moveConnection s g cid d = (s, false)) ∧
      (findIdxOf cid conns = some 0 → moveConnection s g cid (-1) = (s, false)) ∧
      (∀ i, findIdxOf cid conns = some i → i + 1 = conns.length →
        moveConnection s g cid 1 = (s, false)) ∧
      (∀ i, findIdxOf cid conns = some i → 0 < i →
        ∃ conns2, moveConnection s g cid (-1) =
            ({ s with groups := alSet s.groups g conns2 }, true) ∧
          conns2.length = conns.length ∧
          conns2[i - 1]? = conns[i]? ∧ conns2[i]? = conns[i - 1]? ∧
          (∀ m, m ≠ i → m ≠ i - 1 → conns2[m]? = conns[m]?)) ∧
      (∀ i, findIdxOf cid conns = some i → i + 1 < conns.length →
        ∃ conns2, moveConnection s g cid 1 =
            ({ s with groups := alSet s.groups g conns2 }, true) ∧
          conns2.length = conns.length ∧
          conns2[i + 1]? = conns[i]? ∧ conns2[i]? = conns[i + 1]? ∧
          (∀ m, m ≠ i → m ≠ i + 1 → conns2[m]? = conns[m]?))) := by
  constructor
  · intro d habs
    simp [moveConnection, habs]
  · intro conns hconns
    refine ⟨?_, ?_, ?_, ?_, ?_⟩
    · intro d hidx
      exact moveConnection_eq_notfound s g cid d conns hconns hidx
    · intro hidx
      rw [moveConnection_eq_found s g cid (-1) conns 0 hconns hidx,
        if_neg (by omega)]
    · intro i hidx hlast
      rw [moveConnection_eq_found s g cid 1 conns i hconns hidx,
        if_neg (by omega)]
    · intro i hidx hpos
      have hilt : i < conns.length := findIdxOf_lt_length cid conns i hidx
      rw [moveConnection_eq_found s g cid (-1) conns i hconns hidx,
        if_pos (by omega)]
      have htn : ((i : Int) + (-1)).toNat = i - 1 := by omega
      rw [htn]
      refine ⟨swapList conns i (i - 1), rfl,
        swapList_length conns i (i - 1), ?_, ?_, ?_⟩
      · rw [swapList_getElem? conns i (i - 1) (i - 1) hilt (by omega), if_pos rfl]
      · rw [swapList_getElem? conns i (i - 1) i hilt (by omega),
          if_neg (by omega), if_pos rfl]
      · intro m hm1 hm2
        rw [swapList_getElem? conns i (i - 1) m hilt (by omega),
          if_neg hm2, if_neg hm1]
    · intro i hidx hlt
      have hilt : i < conns.length := findIdxOf_lt_length cid conns i hidx
      rw [moveConnection_eq_found s g cid 1 conns i hconns hidx,
        if_pos (by omega)]
      have htn : ((i : Int) + 1).toNat = i + 1 := by omega
      rw [htn]
      refine ⟨swapList conns i (i + 1), rfl,
        swapList_length conns i (i + 1), ?_, ?_, ?_⟩
      · rw [swapList_getElem? conns i (i + 1) (i + 1) hilt hlt, if_pos rfl]
      · rw [swapList_getElem? conns i (i + 1) i hilt hlt,
          if_neg (by omega), if_pos rfl]
      · intro m hm1 hm2
        rw [swapList_getElem? conns i (i + 1) m hilt hlt,
          if_neg hm2, if_neg hm1]

/-- Witness for C7: in a two-profile Default group, moving the first
profile up fails, and moving the second profile up swaps the two. -/
theorem moveConnection_spec_witness :
    moveConnection
      { active_group := "Default"
        close_on_connect := true
        groups := [("Default",
          [{ id := "a", name := "A", host := "a.org", key := "k1",
             port := 6837, mode := "leader", selfHosted := false },
           { id := "b", name := "B", host := "b.org", key := "k2",
             port := 7000, mode := "follower", selfHosted := false }])] }
      "Default" "a" (-1) =
      ({ active_group := "Default"
         close_on_connect := true
         groups := [("Default",
           [{ id := "a", name := "A", host := "a.org", key := "k1",
              port := 6837, mode := "leader", selfHosted := false },
            { id := "b", name := "B", host := "b.org", key := "k2",
              port := 7000, mode := "follower", selfHosted := false }])] },
       false) :=
  ((moveConnection_spec
      { active_group := "Default"
        close_on_connect := true
        groups := [("Default",
          [{ id := "a", name := "A", host := "a.org", key := "k1",
             port := 6837, mode := "leader", selfHosted := false },
           { id := "b", name := "B", host := "b.org", key := "k2",
             port := 7000, mode := "follower", selfHosted := false }])] }
      "Default" "a").2
    [{ id := "a", name := "A", host := "a.org", key := "k1",
       port := 6837, mode := "leader", selfHosted := false },
     { id := "b", name := "B", host := "b.org", key := "k2",
       port := 7000, mode := "follower", selfHosted := false }]
    (by decide)).2.1 (by decide)

/-! ## C9 -/

/-- C9: when the host remote client is not running, every observational
query short-circuits to its safe default: `isConnected()` is false,
`getCurrentConnectionInfo()` is none, `getSwapTargetInfo()` is
(none, none). -/
theorem service_safe_defaults_when_not_running (h : HostState)
    (hrun : isRunning h = false) :
    isConnected h = false ∧
    getCurrentConnectionInfo h = none ∧
    getSwapTargetInfo h = (none, none) := by
  refine ⟨?_, ?_, ?_⟩
  · simp [isConnected, hrun]
  · simp [getCurrentConnectionInfo, getClient, hrun]
  · simp [getSwapTargetInfo, getClient, hrun]

/-- Witness for C9 at the host state with no client at all. -/
theorem service_safe_defaults_when_not_running_witness :
    isConnected { remoteClient := none, controlServer := none } = false ∧
    getCurrentConnectionInfo { remoteClient := none, controlServer := none } = none ∧
    getSwapTargetInfo { remoteClient := none, controlServer := none } =
      (none, none) :=
  service_safe_defaults_when_not_running
    { remoteClient := none, controlServer := none } rfl

/-! ## C8 -/

/-- C8: `setAsAutoConnect(profile)` enables autoconnect and copies
selfHosted, mode (as the 0/1 `RemoteConnectionMode` value) and key; for a
self-hosted profile it stores the profile's port and leaves the host
field untouched; otherwise it leaves the port untouched and stores the
host as `"host:port"` exactly when the port differs from 6837, else the
bare host. -/
theorem setAsAutoConnect_spec (cs : ControlServerConf) (conn : Profile) :
    (setAsAutoConnect cs conn).autoconnect = true ∧
    (setAsAutoConnect cs conn).selfHosted = conn.selfHosted ∧
    (setAsAutoConnect cs conn).key = conn.key ∧
    (setAsAutoConnect cs conn).connectionMode =
      (if conn.mode = "leader" then RemoteConnectionMode.leader
       else RemoteConnectionMode.follower) ∧
    (setAsAutoConnect cs conn).port =
      (if conn.selfHosted then conn.port else cs.port) ∧
    (setAsAutoConnect cs conn).host =
      (if conn.selfHosted then cs.host
       else if conn.port = 6837 then conn.host
       else conn.host ++ ":" ++ toString conn.port) := by
  unfold setAsAutoConnect
  cases hsh : conn.selfHosted <;> by_cases hp : conn.port = 6837 <;>
    simp [hsh, hp]

/-! ## C5 -/

/-- How the auto-connect record resolves to a (hostname, port) target:
by parsing its `host` string when not self-hosted, or to `localhost` with
its stored port when self-hosted. -/
def resolveConfHostPort (parse : String → Option (String × Nat))
    (conf : ControlServerConf) : Option (String × Nat) :=
  if conf.selfHosted then some ("localhost", conf.port) else parse conf.host

/-- C5: `isCurrentConnectionDefault()` is true exactly when a session is
connected and the auto-connect record resolves to the active session's
`(hostname, port, key, mode)` tuple; and a malformed configured host
string (parser failure, non-self-hosted) makes it report false rather
than fail. -/
theorem isCurrentConnectionDefault_spec
    (parse : String → Option (String × Nat)) (h : HostState) :
    (isCurrentConnectionDefault parse h = true ↔
      isConnected h = true ∧
      ∃ conf currentInfo,
        getControlServerConfig h = some conf ∧
        getCurrentConnectionInfo h = some currentInfo ∧
        resolveConfHostPort parse conf =
          some (currentInfo.hostname, currentInfo.port) ∧
        currentInfo.key = conf.key ∧
        currentInfo.mode = conf.connectionMode.toConnectionMode) ∧
    (∀ conf, getControlServerConfig h = some conf → conf.selfHosted = false →
      parse conf.host = none → isCurrentConnectionDefault parse h = false) := by
  constructor
  · unfold isCurrentConnectionDefault
    cases hc : isConnected h with
    | false => simp
    | true =>
      cases hcs : getControlServerConfig h with
      | none => simp
      | some conf =>
        cases hci : getCurrentConnectionInfo h with
        | none => simp
        | some ci =>
          cases hsh : conf.selfHosted with
          | true =>
            simp [resolveConfHostPort, hsh, Prod.ext_iff]
            aesop
          | false =>
            cases hp : parse conf.host with
            | none => simp [resolveConfHostPort, hsh, hp]
            | some pr =>
              simp [resolveConfHostPort, hsh, hp, Prod.ext_iff]
              aesop
  · intro conf hcs hsh hp
    unfold isCurrentConnectionDefault
    cases hc : isConnected h with
    | false => simp
    | true =>
      rw [hcs]
      cases hci : getCurrentConnectionInfo h with
      | none => simp
      | some ci => simp [hsh, hp]

/-- Witness for C5: with a malformed configured host (the parser rejects
every string) and a connected leader session, the check reports false. -/
theorem isCurrentConnectionDefault_spec_witness :
    isCurrentConnectionDefault (fun _ => none)
      { remoteClient := some
          { connected := true
            leaderSession := some
              { info := { hostname := "example.org", port := 7000,
                          key := "abc", mode := ConnectionMode.leader,
                          insecure := false }
                transportInsecure := false }
            followerSession := none }
        controlServer := some
          { autoconnect := true, selfHosted := false,
            connectionMode := RemoteConnectionMode.leader,
            key := "abc", host := "bad host string", port := 6837 } } = false :=
  (isCurrentConnectionDefault_spec (fun _ => none)
      { remoteClient := some
          { connected := true
            leaderSession := some
              { info := { hostname := "example.org", port := 7000,
                          key := "abc", mode := ConnectionMode.leader,
                          insecure := false }
                transportInsecure := false }
            followerSession := none }
        controlServer := some
          { autoconnect := true, selfHosted := false,
            connectionMode := RemoteConnectionMode.leader,
            key := "abc", host := "bad host string", port := 6837 } }).2
    { autoconnect := true, selfHosted := false,
      connectionMode := RemoteConnectionMode.leader,
      key := "abc", host := "bad host string", port := 6837 }
    rfl rfl rfl

/-! ## C6 -/

/-- C6: with no live client or no active session `getSwapTargetInfo()`
returns (none, none); with an active leader session it returns a
follower-mode descriptor, with an active follower session a leader-mode
descriptor, and in both cases the descriptor carries the session's
hostname, port, key and transport-insecure flag with only the mode
flipped. -/
theorem getSwapTargetInfo_spec (h : HostState) :
    (getClient h = none → getSwapTargetInfo h = (none, none)) ∧
    (∀ c, getClient h = some c → c.leaderSession = none →
      c.followerSession = none → getSwapTargetInfo h = (none, none)) ∧
    (∀ c sess, getClient h = some c → c.leaderSession = some sess →
      getSwapTargetInfo h =
        (some { hostname := sess.info.hostname, port := sess.info.port,
                key := sess.info.key, mode := ConnectionMode.follower,
                insecure := sess.transportInsecure },
         some ConnectionMode.follower)) ∧
    (∀ c sess, getClient h = some c → c.leaderSession = none →
      c.followerSession = some sess →
      getSwapTargetInfo h =
        (some { hostname := sess.info.hostname, port := sess.info.port,
                key := sess.info.key, mode := ConnectionMode.leader,
                insecure := sess.transportInsecure },
         some ConnectionMode.leader)) := by
  refine ⟨?_, ?_, ?_, ?_⟩
  · intro hc
    simp [getSwapTargetInfo, hc]
  · intro c hc hl hf
    simp [getSwapTargetInfo, hc, hl, hf]
  · intro c sess hc hl
    simp [getSwapTargetInfo, getCurrentConnectionInfo, hc, hl]
  · intro c sess hc hl hf
    simp [getSwapTargetInfo, getCurrentConnectionInfo, hc, hl, hf]

/-- Witness for C6: an active follower session to
`(h, p, k, i) = ("example.org", 7000, "abc", true)` yields a leader-mode
target with the same four values. -/
theorem getSwapTargetInfo_spec_witness :
    getSwapTargetInfo
      { remoteClient := some
          { connected := true
            leaderSession := none
            followerSession := some
              { info := { hostname := "example.org", port := 7000,
                          key := "abc", mode := ConnectionMode.follower,
                          insecure := true }
                transportInsecure := true } }
        controlServer := none } =
      (some { hostname := "example.org", port := 7000, key := "abc",
              mode := ConnectionMode.leader, insecure := true },
       some ConnectionMode.leader) :=
  (getSwapTargetInfo_spec
      { remoteClient := some
          { connected := true
            leaderSession := none
            followerSession := some
              { info := { hostname := "example.org", port := 7000,
                          key := "abc", mode := ConnectionMode.follower,
                          insecure := true }
                transportInsecure := true } }
        controlServer := none }).2.2.2
    { connected := true
      leaderSession := none
      followerSession := some
        { info := { hostname := "example.org", port := 7000,
                    key := "abc", mode := ConnectionMode.follower,
                    insecure := true }
          transportInsecure := true } }
    { info := { hostname := "example.org", port := 7000,
                key := "abc", mode := ConnectionMode.follower,
                insecure := true }
      transportInsecure := true }
    rfl rfl rfl

end RemotePlusPlus
